import Mathlib

/-!
Shallow embedding of the showdex play-ahead turn-simulation engine:
`determineMoveOrder` (src/utils/playahead/determineMoveOrder.ts),
`applyMoveEffects` (src/utils/playahead/applyMoveEffects.ts),
`simulateTurn` (src/utils/playahead/simulateTurn.ts) and the
`playAheadSlice` reducer `advanceTurn` (src/redux/store/playAheadSlice.ts).

External collaborators (`getDexForFormat`, `calcPokemonFinalStats`,
`calcSmogonMatchup`, `Math.random`) are modelled as explicit oracle
parameters.  JavaScript numbers appearing in these code paths are
non-negative integers (HP, damage, speed) modelled as `Nat`, move
priorities as `Int`, and the recoil/drain fraction arithmetic
`Math.floor(damage * (num / den))` is computed exactly as
`damage * num / den` in `Nat` (for the dex fractions 1/2, 1/3, 1/4,
33/100 the double-precision product floors to the same value).
-/

namespace PlayAhead

/-- Player keys (`CalcdexPlayerKey`) for the 1v1 battles the engine supports. -/
inductive PlayerKey
  | p1
  | p2
deriving DecidableEq, Repr

/-- The slice of `CalcdexPokemon` read and written by the play-ahead engine.
Optional fields mirror possibly-`undefined` TypeScript fields. -/
structure Pokemon where
  speciesForme : String := ""
  playerKey : Option PlayerKey := none
  hp : Option Nat := none
  dirtyHp : Option Nat := none
  maxhp : Option Nat := none
deriving DecidableEq, Repr

/-- The slice of `CalcdexPlayer` used by the engine. -/
structure Player where
  activeIndices : Option (List Nat) := none
  selectionIndex : Option Nat := none
  pokemon : Option (List Pokemon) := none
deriving DecidableEq, Repr

/-- The slice of `CalcdexBattleField` used by the engine. -/
structure Field where
  isTrickRoom : Option Bool := none
deriving DecidableEq, Repr

/-- The slice of `CalcdexBattleState` used by the engine. -/
structure BattleState where
  p1 : Option Player := none
  p2 : Option Player := none
  field : Option Field := none
deriving DecidableEq, Repr

/-- `battleState[playerKey]` indexing. -/
def getPlayer (s : BattleState) : PlayerKey → Option Player
  | .p1 => s.p1
  | .p2 => s.p2

/-- Replace the player stored under key `k`. -/
def setPlayer (s : BattleState) (k : PlayerKey) (p : Player) : BattleState :=
  match k with
  | .p1 => { s with p1 := some p }
  | .p2 => { s with p2 := some p }

/-- `player.activeIndices?.[0] ?? player.selectionIndex ?? 0`. -/
def activeIdx (p : Player) : Nat :=
  match p.activeIndices with
  | some (i :: _) => i
  | _ => p.selectionIndex.getD 0

/-- `player.pokemon?.[i]`. -/
def pokeAt (p : Player) (i : Nat) : Option Pokemon :=
  (p.pokemon.getD []).get? i

/-- `player.pokemon[i] = q` (the in-place slot assignment in the cloned state). -/
def setPokeAt (p : Player) (i : Nat) (q : Pokemon) : Player :=
  { p with pokemon := some ((p.pokemon.getD []).set i q) }

/-- Write pokemon `q` into slot `i` of the player stored under `k`
(the effect of `somePlayer.pokemon[i] = q` on the whole state). -/
def setActivePokeRaw (s : BattleState) (k : PlayerKey) (i : Nat) (q : Pokemon) : BattleState :=
  match getPlayer s k with
  | some pl => setPlayer s k (setPokeAt pl i q)
  | none => s

/-- The active Pokemon of player `k` in `s`
(the `activeIndices?.[0] ?? selectionIndex ?? 0` lookup chain). -/
def activePoke (s : BattleState) (k : PlayerKey) : Option Pokemon :=
  (getPlayer s k).bind fun pl => pokeAt pl (activeIdx pl)

/-- The fields of a dex move record consumed by the engine.
`recoil`/`drain` are the `[numerator, denominator]` fraction pairs. -/
structure DexMove where
  priority : Option Int := none
  category : String := "Physical"
  recoil : Option (Nat × Nat) := none
  drain : Option (Nat × Nat) := none
deriving DecidableEq, Repr

/-- The move-metadata provider (`dex.moves.get`), an external collaborator. -/
structure Dex where
  moves : String → Option DexMove

/-- A damage range `[low, high]` or a scalar damage value, as found in
`matchupResult.damageRange`. -/
inductive DamageRange
  | range (lo hi : Nat)
  | scalar (n : Nat)
deriving DecidableEq, Repr

/-- The slice of `CalcdexMatchupResult` consumed by the engine. -/
structure MatchupResult where
  damageRange : Option DamageRange := none
  description : Option String := none
  koChance : Option String := none
deriving DecidableEq, Repr

/-- JavaScript truthiness of `matchupResult?.damageRange`: `undefined` and the
scalar `0` are falsy, any array and any nonzero scalar are truthy. -/
def drTruthy : Option DamageRange → Bool
  | none => false
  | some (.scalar 0) => false
  | some _ => true

/-- `Math.floor((d[0] + d[1]) / 2)` for a range, or the scalar itself. -/
def midpoint : DamageRange → Nat
  | .range lo hi => (lo + hi) / 2
  | .scalar n => n

/-- `dex?.moves.get(m)?.priority ?? 0`. -/
def movePriority (dex : Option Dex) (m : String) : Int :=
  ((dex.bind fun d => d.moves m).bind DexMove.priority).getD 0

/-- The `reason` tag of a `MoveOrderInfo`. -/
inductive OrderReason
  | priority
  | speed
  | trickRoom
  | random
deriving DecidableEq, Repr

/-- `MoveOrderInfo`: which Pokemon moves first and why. -/
structure MoveOrderInfo where
  firstPlayerKey : PlayerKey
  secondPlayerKey : PlayerKey
  firstMove : String
  secondMove : String
  firstPriority : Int
  secondPriority : Int
  firstSpeed : Nat
  secondSpeed : Nat
  reason : OrderReason
deriving DecidableEq, Repr

/-- `determineMoveOrder` from determineMoveOrder.ts.  The external stats
calculator `calcPokemonFinalStats(format, a, b, ...).stats()?.spe` is the
oracle `spe a b` (it already accounts for players, field and format), and the
`Math.random() < 0.5` draw of the speed-tie branch is the injected `coin`. -/
def determineMoveOrder (dex : Option Dex) (spe : Pokemon → Pokemon → Option Nat)
    (coin : Bool) (p1Pokemon p2Pokemon : Pokemon) (p1Move p2Move : String)
    (field : Option Field) : MoveOrderInfo :=
  let p1Priority := movePriority dex p1Move
  let p2Priority := movePriority dex p2Move
  let p1Speed := (spe p1Pokemon p2Pokemon).getD 0
  let p2Speed := (spe p2Pokemon p1Pokemon).getD 0
  let p1Key := p1Pokemon.playerKey.getD .p1
  let p2Key := p2Pokemon.playerKey.getD .p2
  if p1Priority ≠ p2Priority then
    { firstPlayerKey := if p1Priority > p2Priority then p1Key else p2Key
      secondPlayerKey := if p1Priority > p2Priority then p2Key else p1Key
      firstMove := if p1Priority > p2Priority then p1Move else p2Move
      secondMove := if p1Priority > p2Priority then p2Move else p1Move
      firstPriority := max p1Priority p2Priority
      secondPriority := min p1Priority p2Priority
      firstSpeed := if p1Priority > p2Priority then p1Speed else p2Speed
      secondSpeed := if p1Priority > p2Priority then p2Speed else p1Speed
      reason := .priority }
  else
    let isTrickRoom := (field.bind Field.isTrickRoom).getD false
    if p1Speed = p2Speed then
      let p1GoesFirst := coin
      { firstPlayerKey := if p1GoesFirst then p1Key else p2Key
        secondPlayerKey := if p1GoesFirst then p2Key else p1Key
        firstMove := if p1GoesFirst then p1Move else p2Move
        secondMove := if p1GoesFirst then p2Move else p1Move
        firstPriority := p1Priority
        secondPriority := p2Priority
        firstSpeed := p1Speed
        secondSpeed := p2Speed
        reason := .random }
    else
      let p1GoesFirst := if isTrickRoom then p1Speed < p2Speed else p1Speed > p2Speed
      { firstPlayerKey := if p1GoesFirst then p1Key else p2Key
        secondPlayerKey := if p1GoesFirst then p2Key else p1Key
        firstMove := if p1GoesFirst then p1Move else p2Move
        secondMove := if p1GoesFirst then p2Move else p1Move
        firstPriority := p1Priority
        secondPriority := p2Priority
        firstSpeed := if p1GoesFirst then p1Speed else p2Speed
        secondSpeed := if p1GoesFirst then p2Speed else p1Speed
        reason := if isTrickRoom then .trickRoom else .speed }

/-- Result record of `applyMoveEffects` (`MoveEffectApplicationResult`).
An `errors` value of `[]` models the `undefined` the source returns when its
error list is empty. -/
structure MoveEffectResult where
  battleState : BattleState
  targetFainted : Bool
  userFainted : Bool
  description : Option String := none
  errors : List String := []
deriving DecidableEq, Repr

/-- `descriptionParts.join(' ')`. -/
def joinParts (parts : List String) : String :=
  String.intercalate " " parts

/-- The drain stage of `applyMoveEffects` (the `if (dexMove.drain)` block and
the final return).  `userPokemon` is the pokemon captured before any stage
ran, exactly as the source closes over the original `userPokemon` const. -/
def drainStage (s : BattleState) (userPlayerKey : PlayerKey) (userIndex : Nat)
    (userPokemon : Pokemon) (dexMove : DexMove) (matchupResult : Option MatchupResult)
    (descSoFar : List String) : MoveEffectResult :=
  let dr := matchupResult.bind MatchupResult.damageRange
  match dexMove.drain with
  | some (dn, dd) =>
    -- drainPercent = dn / dd; `drainPercent > 0 && matchupResult?.damageRange`
    if 0 < dn ∧ 0 < dd ∧ drTruthy dr = true then
      let damageDealt := midpoint (dr.getD (.scalar 0))
      let healAmount := max 1 (damageDealt * dn / dd)
      let currentHp := userPokemon.hp.getD 100
      let maxHp := userPokemon.maxhp.getD 100
      let newHp := min maxHp (currentHp + healAmount)
      let s1 := setActivePokeRaw s userPlayerKey userIndex
        { userPokemon with hp := some newHp, dirtyHp := some newHp }
      { battleState := s1, targetFainted := false, userFainted := false
        description := some (joinParts (descSoFar ++
          [userPokemon.speciesForme ++ " restored " ++ toString healAmount ++ " HP."])) }
    else
      { battleState := s, targetFainted := false, userFainted := false
        description := some (joinParts descSoFar) }
  | none =>
    { battleState := s, targetFainted := false, userFainted := false
      description := some (joinParts descSoFar) }

/-- The recoil stage of `applyMoveEffects` (the `if (dexMove.recoil)` block),
continuing into `drainStage`.  `recoilPercent = rn / rd` is computed exactly,
so the `recoilPercent > 0` guard becomes `0 < rn ∧ 0 < rd`. -/
def recoilStage (s : BattleState) (userPlayerKey : PlayerKey) (userIndex : Nat)
    (userPokemon : Pokemon) (dexMove : DexMove) (matchupResult : Option MatchupResult)
    (descSoFar : List String) : MoveEffectResult :=
  let dr := matchupResult.bind MatchupResult.damageRange
  match dexMove.recoil with
  | some (rn, rd) =>
    if 0 < rn ∧ 0 < rd ∧ drTruthy dr = true then
      let damageDealt := midpoint (dr.getD (.scalar 0))
      let recoilDamage := max 1 (damageDealt * rn / rd)
      let currentHp := userPokemon.hp.getD 100
      let newHp := currentHp - recoilDamage
      let s1 := setActivePokeRaw s userPlayerKey userIndex
        { userPokemon with hp := some newHp, dirtyHp := some newHp }
      let d1 := descSoFar ++
        [userPokemon.speciesForme ++ " took " ++ toString recoilDamage ++ " recoil damage."]
      if newHp = 0 then
        { battleState := s1, targetFainted := false, userFainted := true
          description := some (joinParts (d1 ++
            [userPokemon.speciesForme ++ " fainted from recoil!"])) }
      else
        drainStage s1 userPlayerKey userIndex userPokemon dexMove matchupResult d1
    else
      drainStage s userPlayerKey userIndex userPokemon dexMove matchupResult descSoFar
  | none =>
    drainStage s userPlayerKey userIndex userPokemon dexMove matchupResult descSoFar

/-- `applyMoveEffects` from applyMoveEffects.ts.  The source first deep-copies
`battleState` via `cloneBattleState` and mutates only the copy; in this value
semantics the copy is the input value itself and every mutation is an explicit
functional update threaded through the stages. -/
def applyMoveEffects (dex : Option Dex) (battleState : BattleState)
    (userPlayerKey targetPlayerKey : PlayerKey) (move : String)
    (matchupResult : Option MatchupResult) : MoveEffectResult :=
  let newBattleState := battleState
  match getPlayer newBattleState userPlayerKey, getPlayer newBattleState targetPlayerKey with
  | some userPlayer, some targetPlayer =>
    let userIndex := activeIdx userPlayer
    let targetIndex := activeIdx targetPlayer
    match pokeAt userPlayer userIndex, pokeAt targetPlayer targetIndex with
    | some userPokemon, some targetPokemon =>
      match dex.bind fun d => d.moves move with
      | none =>
        { battleState := newBattleState, targetFainted := false, userFainted := false
          errors := ["Move " ++ move ++ " not found in dex"] }
      | some dexMove =>
        let d0 := [userPokemon.speciesForme ++ " used " ++ move ++ "!"]
        let dr := matchupResult.bind MatchupResult.damageRange
        if dexMove.category ≠ "Status" ∧ drTruthy dr = true then
          let damage := midpoint (dr.getD (.scalar 0))
          if 0 < damage then
            let currentHp := targetPokemon.hp.getD 100
            let newHp := currentHp - damage
            let s1 := setActivePokeRaw newBattleState targetPlayerKey targetIndex
              { targetPokemon with hp := some newHp, dirtyHp := some newHp }
            let d1 := d0 ++ ["It dealt " ++ toString damage ++ " damage."]
            if newHp = 0 then
              { battleState := s1, targetFainted := true, userFainted := false
                description := some (joinParts (d1 ++
                  [targetPokemon.speciesForme ++ " fainted!"])) }
            else
              recoilStage s1 userPlayerKey userIndex userPokemon dexMove matchupResult d1
          else
            recoilStage newBattleState userPlayerKey userIndex userPokemon dexMove matchupResult d0
        else
          recoilStage newBattleState userPlayerKey userIndex userPokemon dexMove matchupResult d0
    | _, _ =>
      { battleState := newBattleState, targetFainted := false, userFainted := false
        errors := ["Invalid Pokemon"] }
  | _, _ =>
    { battleState := newBattleState, targetFainted := false, userFainted := false
      errors := ["Invalid player keys"] }

/-- One entry of `TurnSimulationResult.moveResults` (`PlayAheadMoveResult`). -/
structure PlayAheadMoveResult where
  pokemon : Option Pokemon := none
  move : String
  playerKey : PlayerKey
  damageRange : Option DamageRange := none
  damagePercent : Option String := none
  koChance : Option String := none
  movesFirst : Bool
  priority : Int
  effectiveSpeed : Nat
deriving DecidableEq, Repr

/-- Result record of `simulateTurn` (`TurnSimulationResult`). -/
structure TurnSimulationResult where
  battleState : BattleState
  moveResults : List PlayAheadMoveResult
  errors : List String := []
deriving DecidableEq, Repr

/-- `simulateTurn` from simulateTurn.ts.  `calc` is the external
`calcSmogonMatchup` oracle (a function of the attacker, the defender and the
move; players, field and format are fixed for the call).  The mid-function
`currentBattleState[moveOrder.firstPlayerKey]` accesses are not null-checked
in the source, so a missing player there would throw; that path is `none`. -/
def simulateTurn (dex : Option Dex)
    (calcMatchup : Option Pokemon → Option Pokemon → String → Option MatchupResult)
    (spe : Pokemon → Pokemon → Option Nat) (coin : Bool)
    (battleState : BattleState) (playerKey opponentKey : PlayerKey)
    (playerMove opponentMove : String) : Option TurnSimulationResult :=
  let currentBattleState := battleState
  match getPlayer currentBattleState playerKey, getPlayer currentBattleState opponentKey with
  | some player, some opponent =>
    let playerIndex := activeIdx player
    let opponentIndex := activeIdx opponent
    match pokeAt player playerIndex, pokeAt opponent opponentIndex with
    | some playerPokemon, some opponentPokemon =>
      let moveOrder := determineMoveOrder dex spe coin playerPokemon opponentPokemon
        playerMove opponentMove currentBattleState.field
      match getPlayer currentBattleState moveOrder.firstPlayerKey,
            getPlayer currentBattleState moveOrder.secondPlayerKey with
      | some firstMoveUser, some firstMoveTarget =>
        let firstMoveUserIndex := activeIdx firstMoveUser
        let firstMoveTargetIndex := activeIdx firstMoveTarget
        let firstMoveUserPokemon := pokeAt firstMoveUser firstMoveUserIndex
        let firstMoveTargetPokemon := pokeAt firstMoveTarget firstMoveTargetIndex
        let firstMatchup := calcMatchup firstMoveUserPokemon firstMoveTargetPokemon moveOrder.firstMove
        let firstMoveResult := applyMoveEffects dex currentBattleState
          moveOrder.firstPlayerKey moveOrder.secondPlayerKey moveOrder.firstMove firstMatchup
        let s1 := firstMoveResult.battleState
        let r1 : PlayAheadMoveResult :=
          { pokemon := firstMoveUserPokemon
            move := moveOrder.firstMove
            playerKey := moveOrder.firstPlayerKey
            damageRange := firstMatchup.bind MatchupResult.damageRange
            damagePercent := firstMatchup.bind MatchupResult.description
            koChance := firstMatchup.bind MatchupResult.koChance
            movesFirst := true
            priority := moveOrder.firstPriority
            effectiveSpeed := moveOrder.firstSpeed }
        let errs1 := firstMoveResult.errors
        if firstMoveResult.targetFainted = true then
          some { battleState := s1, moveResults := [r1], errors := errs1 }
        else if firstMoveResult.userFainted = true then
          some { battleState := s1, moveResults := [r1], errors := errs1 }
        else
          match getPlayer s1 moveOrder.secondPlayerKey, getPlayer s1 moveOrder.firstPlayerKey with
          | some secondMoveUser, some secondMoveTarget =>
            let secondMoveUserIndex := activeIdx secondMoveUser
            let secondMoveTargetIndex := activeIdx secondMoveTarget
            let secondMoveUserPokemon := pokeAt secondMoveUser secondMoveUserIndex
            let secondMoveTargetPokemon := pokeAt secondMoveTarget secondMoveTargetIndex
            let secondMatchup := calcMatchup secondMoveUserPokemon secondMoveTargetPokemon moveOrder.secondMove
            let secondMoveResult := applyMoveEffects dex s1
              moveOrder.secondPlayerKey moveOrder.firstPlayerKey moveOrder.secondMove secondMatchup
            let s2 := secondMoveResult.battleState
            let r2 : PlayAheadMoveResult :=
              { pokemon := secondMoveUserPokemon
                move := moveOrder.secondMove
                playerKey := moveOrder.secondPlayerKey
                damageRange := secondMatchup.bind MatchupResult.damageRange
                damagePercent := secondMatchup.bind MatchupResult.description
                koChance := secondMatchup.bind MatchupResult.koChance
                movesFirst := false
                priority := moveOrder.secondPriority
                effectiveSpeed := moveOrder.secondSpeed }
            some { battleState := s2, moveResults := [r1, r2]
                   errors := errs1 ++ secondMoveResult.errors }
          | _, _ => none
      | _, _ => none
    | _, _ =>
      some { battleState := currentBattleState, moveResults := []
             errors := ["No active Pokemon"] }
  | _, _ =>
    some { battleState := currentBattleState, moveResults := []
           errors := ["Invalid player keys"] }

/-- A pending decision record; only its presence in the queue matters to the
`advanceTurn` reducer. -/
structure PlayAheadPendingDecision where
  kind : String
deriving DecidableEq, Repr

/-- One entry of `PlayAheadState.turnHistory`. -/
structure TurnHistoryEntry where
  turn : Nat
  playerMove : String
  opponentMove : String
  results : List PlayAheadMoveResult
deriving DecidableEq, Repr

/-- The per-battle `PlayAheadState` held in the playAhead slice. -/
structure PlayAheadState where
  battleId : String
  active : Bool
  simulatedTurns : Nat
  playerMove : Option String
  opponentMove : Option String
  simulatedBattleState : BattleState
  turnResults : List PlayAheadMoveResult
  pendingDecisions : List PlayAheadPendingDecision
  turnHistory : List TurnHistoryEntry
  errors : List String
deriving DecidableEq, Repr

/-- JavaScript truthiness of a possibly-null move name (`null`, `undefined`
and `""` are falsy). -/
def jsTruthyStr : Option String → Bool
  | some s => s != ""
  | none => false

/-- The `advanceTurn` reducer from playAheadSlice.ts, acting on the slice
entry stored under `battleId`.  The guard is exactly
`if (!battleId || !state[battleId]?.active) return;`; the history push is
guarded by `playerMove && opponentMove && turnResults`, where `turnResults`
is always a (truthy) array. -/
def advanceTurn (battleId : String) (entry : Option PlayAheadState) :
    Option PlayAheadState :=
  if battleId = "" then entry
  else
    match entry with
    | none => none
    | some p =>
      if p.active = false then some p
      else
        let hist :=
          if jsTruthyStr p.playerMove = true ∧ jsTruthyStr p.opponentMove = true then
            p.turnHistory ++
              [{ turn := p.simulatedTurns + 1
                 playerMove := p.playerMove.getD ""
                 opponentMove := p.opponentMove.getD ""
                 results := p.turnResults }]
          else p.turnHistory
        some { p with
          turnHistory := hist
          simulatedTurns := p.simulatedTurns + 1
          playerMove := none
          opponentMove := none
          turnResults := [] }

/-! ## Order-resolution theorems -/

/-- Claim C3: when the two moves' priority brackets differ (a move whose
priority is missing from the metadata counting as priority 0), the action with
the higher priority is ordered first regardless of the two effective speed
values, the recorded reason is `priority`, and both priorities and both
effective speeds are still recorded in the order decision. -/
theorem determineMoveOrder_priority_first
    (dex : Option Dex) (spe : Pokemon → Pokemon → Option Nat) (coin : Bool)
    (p1Pokemon p2Pokemon : Pokemon) (p1Move p2Move : String) (field : Option Field)
    (h : movePriority dex p1Move ≠ movePriority dex p2Move) :
    (determineMoveOrder dex spe coin p1Pokemon p2Pokemon p1Move p2Move field).reason
      = OrderReason.priority ∧
    (determineMoveOrder dex spe coin p1Pokemon p2Pokemon p1Move p2Move field).firstPriority
      = max (movePriority dex p1Move) (movePriority dex p2Move) ∧
    (determineMoveOrder dex spe coin p1Pokemon p2Pokemon p1Move p2Move field).secondPriority
      = min (movePriority dex p1Move) (movePriority dex p2Move) ∧
    (movePriority dex p1Move > movePriority dex p2Move →
      (determineMoveOrder dex spe coin p1Pokemon p2Pokemon p1Move p2Move field).firstPlayerKey
        = p1Pokemon.playerKey.getD .p1 ∧
      (determineMoveOrder dex spe coin p1Pokemon p2Pokemon p1Move p2Move field).firstMove
        = p1Move ∧
      (determineMoveOrder dex spe coin p1Pokemon p2Pokemon p1Move p2Move field).firstSpeed
        = (spe p1Pokemon p2Pokemon).getD 0 ∧
      (determineMoveOrder dex spe coin p1Pokemon p2Pokemon p1Move p2Move field).secondSpeed
        = (spe p2Pokemon p1Pokemon).getD 0) ∧
    (movePriority dex p2Move > movePriority dex p1Move →
      (determineMoveOrder dex spe coin p1Pokemon p2Pokemon p1Move p2Move field).firstPlayerKey
        = p2Pokemon.playerKey.getD .p2 ∧
      (determineMoveOrder dex spe coin p1Pokemon p2Pokemon p1Move p2Move field).firstMove
        = p2Move ∧
      (determineMoveOrder dex spe coin p1Pokemon p2Pokemon p1Move p2Move field).firstSpeed
        = (spe p2Pokemon p1Pokemon).getD 0 ∧
      (determineMoveOrder dex spe coin p1Pokemon p2Pokemon p1Move p2Move field).secondSpeed
        = (spe p1Pokemon p2Pokemon).getD 0) ∧
    (∀ d m, (Option.bind d fun dx => dx.moves m) = none → movePriority d m = 0) := by
  refine ⟨?_, ?_, ?_, ?_, ?_, ?_⟩
  · simp [determineMoveOrder, h]
  · simp [determineMoveOrder, h]
  · simp [determineMoveOrder, h]
  · intro hgt
    simp [determineMoveOrder, h, hgt]
  · intro hlt
    have hngt : ¬ movePriority dex p1Move > movePriority dex p2Move := by omega
    simp [determineMoveOrder, h, hngt]
  · intro d m hm
    simp [movePriority, hm]

def w3Dex : Option Dex :=
  some ⟨fun m =>
    if m = "Quick Attack" then some { priority := some 1 }
    else if m = "Tackle" then some {} else none⟩

def w3Spe : Pokemon → Pokemon → Option Nat :=
  fun a _ => if a.speciesForme = "Atk" then some 250 else some 400

def w3PokeA : Pokemon := { speciesForme := "Atk", playerKey := some .p1 }

def w3PokeB : Pokemon := { speciesForme := "Def", playerKey := some .p2 }

/-- Witness for C3: a priority +1 move at speed 250 against a priority 0 move
at speed 400 is ordered first with reason `priority`. -/
theorem determineMoveOrder_priority_first_witness :
    (determineMoveOrder w3Dex w3Spe true w3PokeA w3PokeB "Quick Attack" "Tackle" none).reason
      = OrderReason.priority ∧
    (determineMoveOrder w3Dex w3Spe true w3PokeA w3PokeB "Quick Attack" "Tackle" none).firstPlayerKey
      = PlayerKey.p1 ∧
    (determineMoveOrder w3Dex w3Spe true w3PokeA w3PokeB "Quick Attack" "Tackle" none).firstSpeed
      = 250 := by
  have h := determineMoveOrder_priority_first w3Dex w3Spe true w3PokeA w3PokeB
    "Quick Attack" "Tackle" none (by decide)
  obtain ⟨h1, -, -, h4, -, -⟩ := h
  obtain ⟨h5, -, h6, -⟩ := h4 (by decide)
  exact ⟨h1, h5, h6⟩

/-- Claim C4: with equal move priorities and unequal effective speeds, the
higher-speed action is ordered first with reason `speed` when the field's
speed-reversal (Trick Room) condition is inactive, and the lower-speed action
is ordered first with the reversed-field reason (`trick-room`) when it is
active. -/
theorem determineMoveOrder_speed_order
    (dex : Option Dex) (spe : Pokemon → Pokemon → Option Nat) (coin : Bool)
    (p1Pokemon p2Pokemon : Pokemon) (p1Move p2Move : String) (field : Option Field)
    (hp : movePriority dex p1Move = movePriority dex p2Move)
    (hs : (spe p1Pokemon p2Pokemon).getD 0 ≠ (spe p2Pokemon p1Pokemon).getD 0) :
    ((field.bind Field.isTrickRoom).getD false = false →
      (determineMoveOrder dex spe coin p1Pokemon p2Pokemon p1Move p2Move field).reason
        = OrderReason.speed ∧
      (determineMoveOrder dex spe coin p1Pokemon p2Pokemon p1Move p2Move field).firstSpeed
        = max ((spe p1Pokemon p2Pokemon).getD 0) ((spe p2Pokemon p1Pokemon).getD 0) ∧
      (determineMoveOrder dex spe coin p1Pokemon p2Pokemon p1Move p2Move field).secondSpeed
        = min ((spe p1Pokemon p2Pokemon).getD 0) ((spe p2Pokemon p1Pokemon).getD 0) ∧
      ((spe p1Pokemon p2Pokemon).getD 0 > (spe p2Pokemon p1Pokemon).getD 0 →
        (determineMoveOrder dex spe coin p1Pokemon p2Pokemon p1Move p2Move field).firstPlayerKey
          = p1Pokemon.playerKey.getD .p1) ∧
      ((spe p2Pokemon p1Pokemon).getD 0 > (spe p1Pokemon p2Pokemon).getD 0 →
        (determineMoveOrder dex spe coin p1Pokemon p2Pokemon p1Move p2Move field).firstPlayerKey
          = p2Pokemon.playerKey.getD .p2)) ∧
    ((field.bind Field.isTrickRoom).getD false = true →
      (determineMoveOrder dex spe coin p1Pokemon p2Pokemon p1Move p2Move field).reason
        = OrderReason.trickRoom ∧
      (determineMoveOrder dex spe coin p1Pokemon p2Pokemon p1Move p2Move field).firstSpeed
        = min ((spe p1Pokemon p2Pokemon).getD 0) ((spe p2Pokemon p1Pokemon).getD 0) ∧
      (determineMoveOrder dex spe coin p1Pokemon p2Pokemon p1Move p2Move field).secondSpeed
        = max ((spe p1Pokemon p2Pokemon).getD 0) ((spe p2Pokemon p1Pokemon).getD 0) ∧
      ((spe p1Pokemon p2Pokemon).getD 0 < (spe p2Pokemon p1Pokemon).getD 0 →
        (determineMoveOrder dex spe coin p1Pokemon p2Pokemon p1Move p2Move field).firstPlayerKey
          = p1Pokemon.playerKey.getD .p1) ∧
      ((spe p2Pokemon p1Pokemon).getD 0 < (spe p1Pokemon p2Pokemon).getD 0 →
        (determineMoveOrder dex spe coin p1Pokemon p2Pokemon p1Move p2Move field).firstPlayerKey
          = p2Pokemon.playerKey.getD .p2)) := by
  constructor
  · intro htr
    refine ⟨?_, ?_, ?_, ?_, ?_⟩
    · simp [determineMoveOrder, hp, hs, htr]
    · simp only [determineMoveOrder, hp, hs, htr]
      simp
      split <;> omega
    · simp only [determineMoveOrder, hp, hs, htr]
      simp
      split <;> omega
    · intro hgt
      simp [determineMoveOrder, hp, hs, htr, hgt]
    · intro hgt
      have hngt : ¬ (spe p1Pokemon p2Pokemon).getD 0 > (spe p2Pokemon p1Pokemon).getD 0 := by
        omega
      simp [determineMoveOrder, hp, hs, htr, hngt]
  · intro htr
    refine ⟨?_, ?_, ?_, ?_, ?_⟩
    · simp [determineMoveOrder, hp, hs, htr]
    · simp only [determineMoveOrder, hp, hs, htr]
      simp
      split <;> omega
    · simp only [determineMoveOrder, hp, hs, htr]
      simp
      split <;> omega
    · intro hlt
      simp [determineMoveOrder, hp, hs, htr, hlt]
    · intro hlt
      have hnlt : ¬ (spe p1Pokemon p2Pokemon).getD 0 < (spe p2Pokemon p1Pokemon).getD 0 := by
        omega
      simp [determineMoveOrder, hp, hs, htr, hnlt]

def w4Field : Option Field := some { isTrickRoom := some true }

/-- Witness for C4: equal priorities, speeds 250 vs 400.  Without Trick Room
p2 (speed 400) is first with reason `speed`; under Trick Room p1 (speed 250)
is first with reason `trick-room`. -/
theorem determineMoveOrder_speed_order_witness :
    ((determineMoveOrder w3Dex w3Spe true w3PokeA w3PokeB "Tackle" "Tackle" none).reason
      = OrderReason.speed ∧
     (determineMoveOrder w3Dex w3Spe true w3PokeA w3PokeB "Tackle" "Tackle" none).firstPlayerKey
      = PlayerKey.p2) ∧
    ((determineMoveOrder w3Dex w3Spe true w3PokeA w3PokeB "Tackle" "Tackle" w4Field).reason
      = OrderReason.trickRoom ∧
     (determineMoveOrder w3Dex w3Spe true w3PokeA w3PokeB "Tackle" "Tackle" w4Field).firstPlayerKey
      = PlayerKey.p1) := by
  constructor
  · have h := determineMoveOrder_speed_order w3Dex w3Spe true w3PokeA w3PokeB
      "Tackle" "Tackle" none (by decide) (by decide)
    obtain ⟨h1, -⟩ := h
    obtain ⟨h2, -, -, -, h3⟩ := h1 (by decide)
    exact ⟨h2, h3 (by decide)⟩
  · have h := determineMoveOrder_speed_order w3Dex w3Spe true w3PokeA w3PokeB
      "Tackle" "Tackle" w4Field (by decide) (by decide)
    obtain ⟨-, h1⟩ := h
    obtain ⟨h2, -, -, h3, -⟩ := h1 (by decide)
    exact ⟨h2, h3 (by decide)⟩

/-- Claim C10: with equal move priorities and exactly equal effective speeds,
the order is resolved by the random 50/50 draw with reason `random`, and the
field (in particular its Trick Room flag) is never consulted: the decision is
the same for every field value. -/
theorem determineMoveOrder_speed_tie_random
    (dex : Option Dex) (spe : Pokemon → Pokemon → Option Nat) (coin : Bool)
    (p1Pokemon p2Pokemon : Pokemon) (p1Move p2Move : String) (field : Option Field)
    (hp : movePriority dex p1Move = movePriority dex p2Move)
    (hs : (spe p1Pokemon p2Pokemon).getD 0 = (spe p2Pokemon p1Pokemon).getD 0) :
    (determineMoveOrder dex spe coin p1Pokemon p2Pokemon p1Move p2Move field).reason
      = OrderReason.random ∧
    (determineMoveOrder dex spe coin p1Pokemon p2Pokemon p1Move p2Move field).firstPlayerKey
      = (if coin then p1Pokemon.playerKey.getD .p1 else p2Pokemon.playerKey.getD .p2) ∧
    (determineMoveOrder dex spe coin p1Pokemon p2Pokemon p1Move p2Move field).secondPlayerKey
      = (if coin then p2Pokemon.playerKey.getD .p2 else p1Pokemon.playerKey.getD .p1) ∧
    (∀ field2 : Option Field,
      determineMoveOrder dex spe coin p1Pokemon p2Pokemon p1Move p2Move field2
        = determineMoveOrder dex spe coin p1Pokemon p2Pokemon p1Move p2Move field) := by
  refine ⟨?_, ?_, ?_, ?_⟩
  · simp [determineMoveOrder, hp, hs]
  · simp [determineMoveOrder, hp, hs]
  · simp [determineMoveOrder, hp, hs]
  · intro field2
    simp [determineMoveOrder, hp, hs]

/-- Witness for C10: a full speed tie (both 400) under an active Trick Room
field still resolves with reason `random` by the coin, identically to the
no-field case. -/
theorem determineMoveOrder_speed_tie_random_witness :
    (determineMoveOrder w3Dex w3Spe false w3PokeB w3PokeB "Tackle" "Tackle" w4Field).reason
      = OrderReason.random ∧
    (determineMoveOrder w3Dex w3Spe false w3PokeB w3PokeB "Tackle" "Tackle" w4Field).firstPlayerKey
      = PlayerKey.p2 ∧
    determineMoveOrder w3Dex w3Spe false w3PokeB w3PokeB "Tackle" "Tackle" none
      = determineMoveOrder w3Dex w3Spe false w3PokeB w3PokeB "Tackle" "Tackle" w4Field := by
  have h := determineMoveOrder_speed_tie_random w3Dex w3Spe false w3PokeB w3PokeB
    "Tackle" "Tackle" w4Field (by decide) (by decide)
  obtain ⟨h1, h2, -, h4⟩ := h
  refine ⟨h1, ?_, h4 none⟩
  rw [h2]
  decide

/-! ## State-update helper lemmas -/

theorem getPlayer_setPlayer_same (s : BattleState) (k : PlayerKey) (p : Player) :
    getPlayer (setPlayer s k p) k = some p := by
  cases k <;> rfl

theorem getPlayer_setPlayer_other (s : BattleState) (k k2 : PlayerKey) (p : Player)
    (h : k2 ≠ k) : getPlayer (setPlayer s k p) k2 = getPlayer s k2 := by
  cases k <;> cases k2 <;> first | rfl | exact absurd rfl h

theorem getPlayer_setActivePokeRaw_other (s : BattleState) (k k2 : PlayerKey)
    (i : Nat) (q : Pokemon) (h : k2 ≠ k) :
    getPlayer (setActivePokeRaw s k i q) k2 = getPlayer s k2 := by
  simp only [setActivePokeRaw]
  cases hpl : getPlayer s k
  · rfl
  · exact getPlayer_setPlayer_other s k k2 _ h

theorem activePoke_setActivePokeRaw_other (s : BattleState) (k k2 : PlayerKey)
    (i : Nat) (q : Pokemon) (h : k2 ≠ k) :
    activePoke (setActivePokeRaw s k i q) k2 = activePoke s k2 := by
  simp only [activePoke]
  rw [getPlayer_setActivePokeRaw_other s k k2 i q h]

theorem activeIdx_setPokeAt (pl : Player) (i : Nat) (q : Pokemon) :
    activeIdx (setPokeAt pl i q) = activeIdx pl := rfl

theorem pokeAt_setPokeAt_same (pl : Player) (i : Nat) (q p0 : Pokemon)
    (h : pokeAt pl i = some p0) : pokeAt (setPokeAt pl i q) i = some q := by
  simp only [pokeAt, setPokeAt] at h ⊢
  rw [List.get?_eq_getElem?] at h ⊢
  simp only [Option.getD_some]
  rw [List.getElem?_set_self']
  simp [h]

theorem activePoke_setActivePokeRaw_same (s : BattleState) (k : PlayerKey)
    (pl : Player) (q p0 : Pokemon) (h : getPlayer s k = some pl)
    (hp : pokeAt pl (activeIdx pl) = some p0) :
    activePoke (setActivePokeRaw s k (activeIdx pl) q) k = some q := by
  simp only [setActivePokeRaw, h, activePoke, getPlayer_setPlayer_same,
    Option.bind_some, activeIdx_setPokeAt]
  exact pokeAt_setPokeAt_same pl (activeIdx pl) q p0 hp

theorem drainStage_targetFainted (s : BattleState) (uk : PlayerKey) (i : Nat)
    (up : Pokemon) (dm : DexMove) (mr : Option MatchupResult) (d : List String) :
    (drainStage s uk i up dm mr d).targetFainted = false := by
  simp only [drainStage]
  split
  · split <;> rfl
  · rfl

theorem drainStage_userFainted (s : BattleState) (uk : PlayerKey) (i : Nat)
    (up : Pokemon) (dm : DexMove) (mr : Option MatchupResult) (d : List String) :
    (drainStage s uk i up dm mr d).userFainted = false := by
  simp only [drainStage]
  split
  · split <;> rfl
  · rfl

theorem recoilStage_targetFainted (s : BattleState) (uk : PlayerKey) (i : Nat)
    (up : Pokemon) (dm : DexMove) (mr : Option MatchupResult) (d : List String) :
    (recoilStage s uk i up dm mr d).targetFainted = false := by
  simp only [recoilStage]
  split
  · split
    · split
      · rfl
      · exact drainStage_targetFainted _ _ _ _ _ _ _
    · exact drainStage_targetFainted _ _ _ _ _ _ _
  · exact drainStage_targetFainted _ _ _ _ _ _ _

theorem drainStage_activePoke_other (s : BattleState) (uk k2 : PlayerKey) (i : Nat)
    (up : Pokemon) (dm : DexMove) (mr : Option MatchupResult) (d : List String)
    (h : k2 ≠ uk) :
    activePoke (drainStage s uk i up dm mr d).battleState k2 = activePoke s k2 := by
  simp only [drainStage]
  split
  · split
    · exact activePoke_setActivePokeRaw_other _ _ _ _ _ h
    · rfl
  · rfl

theorem recoilStage_activePoke_other (s : BattleState) (uk k2 : PlayerKey) (i : Nat)
    (up : Pokemon) (dm : DexMove) (mr : Option MatchupResult) (d : List String)
    (h : k2 ≠ uk) :
    activePoke (recoilStage s uk i up dm mr d).battleState k2 = activePoke s k2 := by
  simp only [recoilStage]
  split
  · split
    · split
      · exact activePoke_setActivePokeRaw_other _ _ _ _ _ h
      · rw [drainStage_activePoke_other _ _ _ _ _ _ _ _ h]
        exact activePoke_setActivePokeRaw_other _ _ _ _ _ h
    · exact drainStage_activePoke_other _ _ _ _ _ _ _ _ h
  · exact drainStage_activePoke_other _ _ _ _ _ _ _ _ h

theorem drTruthy_of_pos (d : DamageRange) (h : 0 < midpoint d) :
    drTruthy (some d) = true := by
  cases d with
  | range lo hi => rfl
  | scalar n =>
    cases n with
    | zero => simp [midpoint] at h
    | succ m => rfl

/-! ## Effect-pipeline theorems -/

/-- Claim C5 (amended): for an application of a damaging move with a positive
computed damage (the floor of the range midpoint, or the scalar), the target's
new health is `max(0, current - damage)` (truncated `Nat` subtraction) and
`targetFainted` is reported exactly when the new health is 0.  The amendment
restricts the removal equivalence to positive damage: a zero-damage
application (see the counterexample) leaves health untouched and never
reports removal, even when the target's health is already 0. -/
theorem applyMoveEffects_damage
    (dex : Option Dex) (s : BattleState) (userKey targetKey : PlayerKey)
    (move : String) (mr : MatchupResult) (drg : DamageRange)
    (up tp : Player) (uPoke tPoke : Pokemon) (dm : DexMove)
    (hneq : userKey ≠ targetKey)
    (hu : getPlayer s userKey = some up) (ht : getPlayer s targetKey = some tp)
    (hupk : pokeAt up (activeIdx up) = some uPoke)
    (htpk : pokeAt tp (activeIdx tp) = some tPoke)
    (hdm : (dex.bind fun d => d.moves move) = some dm)
    (hcat : dm.category ≠ "Status")
    (hdr : mr.damageRange = some drg)
    (hpos : 0 < midpoint drg) :
    (activePoke (applyMoveEffects dex s userKey targetKey move (some mr)).battleState
        targetKey).bind Pokemon.hp
      = some (tPoke.hp.getD 100 - midpoint drg) ∧
    ((applyMoveEffects dex s userKey targetKey move (some mr)).targetFainted = true
      ↔ tPoke.hp.getD 100 - midpoint drg = 0) := by
  have hneq2 : targetKey ≠ userKey := fun hh => hneq hh.symm
  have hdrb : (some mr).bind MatchupResult.damageRange = some drg := by simp [hdr]
  have htr : drTruthy (some drg) = true := drTruthy_of_pos drg hpos
  simp only [applyMoveEffects, hu, ht, hupk, htpk, hdm, hdrb, Option.getD_some]
  rw [if_pos ⟨hcat, htr⟩, if_pos hpos]
  by_cases hz : tPoke.hp.getD 100 - midpoint drg = 0
  · rw [if_pos hz]
    constructor
    · rw [activePoke_setActivePokeRaw_same s targetKey tp _ tPoke ht htpk]
      simp [hz]
    · simp [hz]
  · rw [if_neg hz]
    constructor
    · rw [recoilStage_activePoke_other _ _ _ _ _ _ _ _ hneq2]
      rw [activePoke_setActivePokeRaw_same s targetKey tp _ tPoke ht htpk]
      simp
    · rw [recoilStage_targetFainted]
      simp [hz]

def c5Dex : Option Dex := some ⟨fun m => if m = "Blast" then some {} else none⟩

def c5User : Pokemon := { speciesForme := "Usr", hp := some 100, maxhp := some 100 }

def c5TargetKO : Pokemon := { speciesForme := "Tgt", hp := some 0, maxhp := some 100 }

def c5State : BattleState :=
  { p1 := some { pokemon := some [c5User] }
    p2 := some { pokemon := some [c5TargetKO] } }

/-- Counterexample to claim C5 as stated: a damaging move whose damage range
is `[0, 0]` (midpoint 0) applied to a target whose current health is already
0.  The claimed `new health = max(0, 0 - 0) = 0` holds, yet `targetFainted`
is reported `false`, refuting "targetRemoved is reported true exactly when
the new health is 0". -/
theorem applyMoveEffects_damage_cex :
    (applyMoveEffects c5Dex c5State .p1 .p2 "Blast"
        (some { damageRange := some (.range 0 0) })).targetFainted = false ∧
    (activePoke (applyMoveEffects c5Dex c5State .p1 .p2 "Blast"
        (some { damageRange := some (.range 0 0) })).battleState .p2).bind Pokemon.hp
      = some 0 := by
  decide

def c5StateFull : BattleState :=
  { p1 := some { pokemon := some [c5User] }
    p2 := some { pokemon := some [{ speciesForme := "Tgt", hp := some 100, maxhp := some 100 }] } }

/-- Witness for C5: a target at 100/100 taking midpoint damage 87 ends at 13
and is not removed. -/
theorem applyMoveEffects_damage_witness :
    (activePoke (applyMoveEffects c5Dex c5StateFull .p1 .p2 "Blast"
        (some { damageRange := some (.range 85 89) })).battleState .p2).bind Pokemon.hp
      = some 13 ∧
    (applyMoveEffects c5Dex c5StateFull .p1 .p2 "Blast"
        (some { damageRange := some (.range 85 89) })).targetFainted = false := by
  have h := applyMoveEffects_damage c5Dex c5StateFull .p1 .p2 "Blast"
    { damageRange := some (.range 85 89) } (.range 85 89)
    { pokemon := some [c5User] }
    { pokemon := some [{ speciesForme := "Tgt", hp := some 100, maxhp := some 100 }] }
    c5User { speciesForme := "Tgt", hp := some 100, maxhp := some 100 } {}
    (by decide) rfl rfl rfl rfl (by decide) (by decide) rfl (by decide)
  obtain ⟨h1, h2⟩ := h
  constructor
  · simpa using h1
  · rw [Bool.eq_false_iff]
    intro hcontra
    exact absurd (h2.mp hcontra) (by decide)

/-- Claim C6 (amended): when the primary damage stage brings the target's
health to zero, the pipeline reports `targetFainted = true` and returns
immediately: no further stage runs at all, including recoil and drain — the
actor's slot is unchanged and `userFainted` is `false`.  (The claim's
"recoil and drain still apply to the actor" is refuted by the
counterexample.) -/
theorem applyMoveEffects_ko_stops_all_stages
    (dex : Option Dex) (s : BattleState) (userKey targetKey : PlayerKey)
    (move : String) (mr : MatchupResult) (drg : DamageRange)
    (up tp : Player) (uPoke tPoke : Pokemon) (dm : DexMove)
    (hneq : userKey ≠ targetKey)
    (hu : getPlayer s userKey = some up) (ht : getPlayer s targetKey = some tp)
    (hupk : pokeAt up (activeIdx up) = some uPoke)
    (htpk : pokeAt tp (activeIdx tp) = some tPoke)
    (hdm : (dex.bind fun d => d.moves move) = some dm)
    (hcat : dm.category ≠ "Status")
    (hdr : mr.damageRange = some drg)
    (hpos : 0 < midpoint drg)
    (hko : tPoke.hp.getD 100 ≤ midpoint drg) :
    (applyMoveEffects dex s userKey targetKey move (some mr)).targetFainted = true ∧
    (applyMoveEffects dex s userKey targetKey move (some mr)).userFainted = false ∧
    activePoke (applyMoveEffects dex s userKey targetKey move (some mr)).battleState
        userKey
      = activePoke s userKey ∧
    (activePoke (applyMoveEffects dex s userKey targetKey move (some mr)).battleState
        targetKey).bind Pokemon.hp
      = some 0 := by
  have hdrb : (some mr).bind MatchupResult.damageRange = some drg := by simp [hdr]
  have htr : drTruthy (some drg) = true := drTruthy_of_pos drg hpos
  have hz : tPoke.hp.getD 100 - midpoint drg = 0 := by omega
  simp only [applyMoveEffects, hu, ht, hupk, htpk, hdm, hdrb, Option.getD_some]
  rw [if_pos ⟨hcat, htr⟩, if_pos hpos, if_pos hz]
  refine ⟨rfl, rfl, ?_, ?_⟩
  · exact activePoke_setActivePokeRaw_other _ _ _ _ _ hneq
  · rw [activePoke_setActivePokeRaw_same s targetKey tp _ tPoke ht htpk]
    simp [hz]

def c6Dex : Option Dex :=
  some ⟨fun m => if m = "Brave Bird" then some { recoil := some (1, 3) } else none⟩

def c6User : Pokemon := { speciesForme := "Bird", hp := some 150, maxhp := some 150 }

def c6Target : Pokemon := { speciesForme := "Tgt", hp := some 50, maxhp := some 100 }

def c6State : BattleState :=
  { p1 := some { pokemon := some [c6User] }
    p2 := some { pokemon := some [c6Target] } }

/-- Counterexample to claim C6 as stated: a recoil-1/3 move dealing midpoint
105 damage knocks out a target at 50 health; the claim says the actor still
takes `max(1, floor(105/3)) = 35` recoil (ending at 115/150), but the code
returns right after the knockout: the actor is still at 150 and
`userFainted` is `false`. -/
theorem applyMoveEffects_ko_recoil_cex :
    (applyMoveEffects c6Dex c6State .p1 .p2 "Brave Bird"
        (some { damageRange := some (.range 100 110) })).targetFainted = true ∧
    (activePoke (applyMoveEffects c6Dex c6State .p1 .p2 "Brave Bird"
        (some { damageRange := some (.range 100 110) })).battleState .p1).bind Pokemon.hp
      = some 150 ∧
    (applyMoveEffects c6Dex c6State .p1 .p2 "Brave Bird"
        (some { damageRange := some (.range 100 110) })).userFainted = false := by
  decide

/-- Witness for C6 (amended): the same knockout scenario via the theorem. -/
theorem applyMoveEffects_ko_stops_all_stages_witness :
    (applyMoveEffects c6Dex c6State .p1 .p2 "Brave Bird"
        (some { damageRange := some (.range 100 110) })).targetFainted = true ∧
    (activePoke (applyMoveEffects c6Dex c6State .p1 .p2 "Brave Bird"
        (some { damageRange := some (.range 100 110) })).battleState .p1).bind Pokemon.hp
      = some 150 := by
  have h := applyMoveEffects_ko_stops_all_stages c6Dex c6State .p1 .p2 "Brave Bird"
    { damageRange := some (.range 100 110) } (.range 100 110)
    { pokemon := some [c6User] } { pokemon := some [c6Target] }
    c6User c6Target { recoil := some (1, 3) }
    (by decide) rfl rfl rfl rfl (by decide) (by decide) rfl (by decide) (by decide)
  obtain ⟨h1, -, h3, -⟩ := h
  refine ⟨h1, ?_⟩
  rw [h3]
  decide

/-- Claim C7: a move with declared recoil fraction `rn/rd` that deals damage
`D > 0` without removing the target reduces the actor's health by exactly
`max(1, floor(D * rn / rd))`, clamped at zero; `userFainted` is reported
exactly when the actor's health reaches zero, and in that case the drain
stage does not run afterwards (the health stays at the recoil result even if
a drain fraction is declared). -/
theorem applyMoveEffects_recoil
    (dex : Option Dex) (s : BattleState) (userKey targetKey : PlayerKey)
    (move : String) (mr : MatchupResult) (drg : DamageRange)
    (up tp : Player) (uPoke tPoke : Pokemon) (dm : DexMove) (rn rd : Nat)
    (hneq : userKey ≠ targetKey)
    (hu : getPlayer s userKey = some up) (ht : getPlayer s targetKey = some tp)
    (hupk : pokeAt up (activeIdx up) = some uPoke)
    (htpk : pokeAt tp (activeIdx tp) = some tPoke)
    (hdm : (dex.bind fun d => d.moves move) = some dm)
    (hcat : dm.category ≠ "Status")
    (hdr : mr.damageRange = some drg)
    (hpos : 0 < midpoint drg)
    (hsurv : midpoint drg < tPoke.hp.getD 100)
    (hrec : dm.recoil = some (rn, rd))
    (hrn : 0 < rn) (hrd : 0 < rd) :
    (applyMoveEffects dex s userKey targetKey move (some mr)).targetFainted = false ∧
    ((applyMoveEffects dex s userKey targetKey move (some mr)).userFainted = true
      ↔ uPoke.hp.getD 100 - max 1 (midpoint drg * rn / rd) = 0) ∧
    ((dm.drain = none ∨ uPoke.hp.getD 100 - max 1 (midpoint drg * rn / rd) = 0) →
      (activePoke (applyMoveEffects dex s userKey targetKey move (some mr)).battleState
          userKey).bind Pokemon.hp
        = some (uPoke.hp.getD 100 - max 1 (midpoint drg * rn / rd))) := by
  have hdrb : (some mr).bind MatchupResult.damageRange = some drg := by simp [hdr]
  have htr : drTruthy (some drg) = true := drTruthy_of_pos drg hpos
  have hz : ¬ tPoke.hp.getD 100 - midpoint drg = 0 := by omega
  have hu1 : getPlayer (setActivePokeRaw s targetKey (activeIdx tp)
      { tPoke with hp := some (tPoke.hp.getD 100 - midpoint drg),
                   dirtyHp := some (tPoke.hp.getD 100 - midpoint drg) }) userKey
      = some up := by
    rw [getPlayer_setActivePokeRaw_other _ _ _ _ _ hneq]
    exact hu
  simp only [applyMoveEffects, hu, ht, hupk, htpk, hdm, hdrb, Option.getD_some]
  rw [if_pos ⟨hcat, htr⟩, if_pos hpos, if_neg hz]
  simp only [recoilStage, hrec, hdrb, Option.getD_some]
  rw [if_pos ⟨hrn, hrd, htr⟩]
  by_cases hz2 : uPoke.hp.getD 100 - max 1 (midpoint drg * rn / rd) = 0
  · rw [if_pos hz2]
    refine ⟨rfl, by simp [hz2], fun _ => ?_⟩
    rw [activePoke_setActivePokeRaw_same _ userKey up _ uPoke hu1 hupk]
    simp
  · rw [if_neg hz2]
    refine ⟨drainStage_targetFainted _ _ _ _ _ _ _, ?_, ?_⟩
    · rw [drainStage_userFainted]
      simp [hz2]
    · rintro (hdn | hzz)
      · simp only [drainStage, hdn]
        rw [activePoke_setActivePokeRaw_same _ userKey up _ uPoke hu1 hupk]
        simp
      · exact absurd hzz hz2

def c7User : Pokemon := { speciesForme := "Bird", hp := some 150, maxhp := some 150 }

def c7Target : Pokemon := { speciesForme := "Tgt", hp := some 100, maxhp := some 100 }

def c7State : BattleState :=
  { p1 := some { pokemon := some [c7User] }
    p2 := some { pokemon := some [c7Target] } }

/-- Witness for C7: a recoil-1/3 move dealing 90 damage leaves the actor at
`150 - max(1, floor(90/3)) = 120`, not fainted. -/
theorem applyMoveEffects_recoil_witness :
    (activePoke (applyMoveEffects c6Dex c7State .p1 .p2 "Brave Bird"
        (some { damageRange := some (.range 90 90) })).battleState .p1).bind Pokemon.hp
      = some 120 ∧
    (applyMoveEffects c6Dex c7State .p1 .p2 "Brave Bird"
        (some { damageRange := some (.range 90 90) })).userFainted = false := by
  have h := applyMoveEffects_recoil c6Dex c7State .p1 .p2 "Brave Bird"
    { damageRange := some (.range 90 90) } (.range 90 90)
    { pokemon := some [c7User] } { pokemon := some [c7Target] }
    c7User c7Target { recoil := some (1, 3) } 1 3
    (by decide) rfl rfl rfl rfl (by decide) (by decide) rfl (by decide) (by decide)
    rfl (by decide) (by decide)
  obtain ⟨-, h2, h3⟩ := h
  constructor
  · simpa using h3 (Or.inl rfl)
  · rw [Bool.eq_false_iff]
    intro hcontra
    exact absurd (h2.mp hcontra) (by decide)

/-- Claim C8: a move with declared drain fraction `dn/dd` (and no recoil
fraction) that deals damage `D > 0` without removing the target increases the
actor's health by `max(1, floor(D * dn / dd))`, clamped so it never exceeds
the actor's maximum health. -/
theorem applyMoveEffects_drain
    (dex : Option Dex) (s : BattleState) (userKey targetKey : PlayerKey)
    (move : String) (mr : MatchupResult) (drg : DamageRange)
    (up tp : Player) (uPoke tPoke : Pokemon) (dm : DexMove) (dn dd : Nat)
    (hneq : userKey ≠ targetKey)
    (hu : getPlayer s userKey = some up) (ht : getPlayer s targetKey = some tp)
    (hupk : pokeAt up (activeIdx up) = some uPoke)
    (htpk : pokeAt tp (activeIdx tp) = some tPoke)
    (hdm : (dex.bind fun d => d.moves move) = some dm)
    (hcat : dm.category ≠ "Status")
    (hdr : mr.damageRange = some drg)
    (hpos : 0 < midpoint drg)
    (hsurv : midpoint drg < tPoke.hp.getD 100)
    (hrec : dm.recoil = none)
    (hdrain : dm.drain = some (dn, dd))
    (hdn : 0 < dn) (hdd : 0 < dd) :
    (applyMoveEffects dex s userKey targetKey move (some mr)).targetFainted = false ∧
    (applyMoveEffects dex s userKey targetKey move (some mr)).userFainted = false ∧
    (activePoke (applyMoveEffects dex s userKey targetKey move (some mr)).battleState
        userKey).bind Pokemon.hp
      = some (min (uPoke.maxhp.getD 100)
          (uPoke.hp.getD 100 + max 1 (midpoint drg * dn / dd))) ∧
    min (uPoke.maxhp.getD 100) (uPoke.hp.getD 100 + max 1 (midpoint drg * dn / dd))
      ≤ uPoke.maxhp.getD 100 := by
  have hdrb : (some mr).bind MatchupResult.damageRange = some drg := by simp [hdr]
  have htr : drTruthy (some drg) = true := drTruthy_of_pos drg hpos
  have hz : ¬ tPoke.hp.getD 100 - midpoint drg = 0 := by omega
  have hu1 : getPlayer (setActivePokeRaw s targetKey (activeIdx tp)
      { tPoke with hp := some (tPoke.hp.getD 100 - midpoint drg),
                   dirtyHp := some (tPoke.hp.getD 100 - midpoint drg) }) userKey
      = some up := by
    rw [getPlayer_setActivePokeRaw_other _ _ _ _ _ hneq]
    exact hu
  simp only [applyMoveEffects, hu, ht, hupk, htpk, hdm, hdrb, Option.getD_some]
  rw [if_pos ⟨hcat, htr⟩, if_pos hpos, if_neg hz]
  simp only [recoilStage, hrec]
  simp only [drainStage, hdrain, hdrb, Option.getD_some]
  rw [if_pos ⟨hdn, hdd, htr⟩]
  refine ⟨rfl, rfl, ?_, Nat.min_le_left _ _⟩
  rw [activePoke_setActivePokeRaw_same _ userKey up _ uPoke hu1 hupk]
  simp

def c8Dex : Option Dex :=
  some ⟨fun m =>
    if m = "Giga Drain" then some { category := "Special", drain := some (1, 2) } else none⟩

def c8User : Pokemon := { speciesForme := "Vine", hp := some 100, maxhp := some 150 }

def c8State : BattleState :=
  { p1 := some { pokemon := some [c8User] }
    p2 := some { pokemon := some [c7Target] } }

/-- Witness for C8: a drain-1/2 move dealing 90 damage heals the actor by 45,
from 100/150 to 145/150, within the maximum. -/
theorem applyMoveEffects_drain_witness :
    (activePoke (applyMoveEffects c8Dex c8State .p1 .p2 "Giga Drain"
        (some { damageRange := some (.range 90 90) })).battleState .p1).bind Pokemon.hp
      = some 145 ∧
    min 150 (100 + max 1 (90 * 1 / 2)) ≤ 150 := by
  have h := applyMoveEffects_drain c8Dex c8State .p1 .p2 "Giga Drain"
    { damageRange := some (.range 90 90) } (.range 90 90)
    { pokemon := some [c8User] } { pokemon := some [c7Target] }
    c8User c7Target { category := "Special", drain := some (1, 2) } 1 2
    (by decide) rfl rfl rfl rfl (by decide) (by decide) rfl (by decide) (by decide)
    rfl rfl (by decide) (by decide)
  obtain ⟨-, -, h3, h4⟩ := h
  exact ⟨by simpa using h3, h4⟩

/-! ## Session (`advanceTurn`) theorems -/

def c1Pending : PlayAheadState :=
  { battleId := "b", active := true, simulatedTurns := 0, playerMove := none
    opponentMove := none, simulatedBattleState := {}, turnResults := []
    pendingDecisions := [{ kind := "switch-in" }], turnHistory := [], errors := [] }

/-- Counterexample to claim C1 as stated: an active session whose
DecisionQueue is non-empty and which has no computed TurnResult (no move
selections, empty `turnResults`).  The claim says `advanceTurn` must be
rejected leaving the state unchanged; instead the reducer accepts the call
and increments the turn counter from 0 to 1. -/
theorem advanceTurn_pending_cex :
    c1Pending.pendingDecisions ≠ [] ∧
    c1Pending.turnResults = [] ∧ c1Pending.playerMove = none ∧
    advanceTurn "b" (some c1Pending) ≠ some c1Pending ∧
    (advanceTurn "b" (some c1Pending)).map PlayAheadState.simulatedTurns = some 1 := by
  decide

theorem advanceTurn_active_eq (battleId : String) (p : PlayAheadState)
    (hb : battleId ≠ "") (ha : p.active = true) :
    advanceTurn battleId (some p) = some { p with
      turnHistory :=
        if jsTruthyStr p.playerMove = true ∧ jsTruthyStr p.opponentMove = true then
          p.turnHistory ++
            [{ turn := p.simulatedTurns + 1
               playerMove := p.playerMove.getD ""
               opponentMove := p.opponentMove.getD ""
               results := p.turnResults }]
        else p.turnHistory
      simulatedTurns := p.simulatedTurns + 1
      playerMove := none
      opponentMove := none
      turnResults := [] } := by
  simp [advanceTurn, hb, ha]

/-- Claim C1 (amended): `advanceTurn` is rejected (state unchanged) exactly
when the battleId is falsy or the session entry is missing or inactive; with
a valid battleId and an active session it always succeeds — regardless of the
DecisionQueue contents and of whether a TurnResult was computed — and then
increments the turn counter by exactly 1, clears both pending action
selections, resets `turnResults`, leaves the queue untouched, and appends
exactly one entry to the turn history precisely when both action selections
were present (truthy). -/
theorem advanceTurn_behavior (battleId : String) (p : PlayAheadState) :
    (battleId = "" ∨ p.active = false → advanceTurn battleId (some p) = some p) ∧
    (battleId ≠ "" → p.active = true →
      ∃ q, advanceTurn battleId (some p) = some q ∧
        q.simulatedTurns = p.simulatedTurns + 1 ∧
        q.playerMove = none ∧ q.opponentMove = none ∧ q.turnResults = [] ∧
        q.pendingDecisions = p.pendingDecisions ∧
        q.simulatedBattleState = p.simulatedBattleState ∧
        q.turnHistory.length =
          (if jsTruthyStr p.playerMove = true ∧ jsTruthyStr p.opponentMove = true
           then p.turnHistory.length + 1 else p.turnHistory.length) ∧
        (jsTruthyStr p.playerMove = true ∧ jsTruthyStr p.opponentMove = true →
          q.turnHistory = p.turnHistory ++
            [{ turn := p.simulatedTurns + 1
               playerMove := p.playerMove.getD ""
               opponentMove := p.opponentMove.getD ""
               results := p.turnResults }]) ∧
        (¬ (jsTruthyStr p.playerMove = true ∧ jsTruthyStr p.opponentMove = true) →
          q.turnHistory = p.turnHistory)) := by
  constructor
  · rintro (hb | ha)
    · simp [advanceTurn, hb]
    · by_cases hb : battleId = ""
      · simp [advanceTurn, hb]
      · simp [advanceTurn, hb, ha]
  · intro hb ha
    refine ⟨_, advanceTurn_active_eq battleId p hb ha, rfl, rfl, rfl, rfl, rfl, rfl,
      ?_, ?_, ?_⟩
    · by_cases hmv : jsTruthyStr p.playerMove = true ∧ jsTruthyStr p.opponentMove = true
      · simp [hmv]
      · simp [hmv]
    · intro hmv
      simp [hmv]
    · intro hmv
      simp [hmv]

def c1Ready : PlayAheadState :=
  { battleId := "b", active := true, simulatedTurns := 0
    playerMove := some "Tackle", opponentMove := some "Ember"
    simulatedBattleState := {}, turnResults := []
    pendingDecisions := [], turnHistory := [], errors := [] }

/-- Witness for C1 (amended): advancing an active session with both moves
selected increments the counter to 1, clears the selections and appends one
history entry. -/
theorem advanceTurn_behavior_witness :
    ∃ q, advanceTurn "b" (some c1Ready) = some q ∧
      q.simulatedTurns = 1 ∧ q.playerMove = none ∧ q.turnHistory.length = 1 := by
  obtain ⟨-, h2⟩ := advanceTurn_behavior "b" c1Ready
  obtain ⟨q, hq, h3, h4, -, -, -, -, h8, -, -⟩ := h2 (by decide) (by decide)
  refine ⟨q, hq, by rw [h3]; rfl, h4, ?_⟩
  rw [h8]
  decide

/-! ## Turn-orchestration helper lemmas -/

theorem determineMoveOrder_keys (dex : Option Dex) (spe : Pokemon → Pokemon → Option Nat)
    (coin : Bool) (p1Pokemon p2Pokemon : Pokemon) (p1Move p2Move : String)
    (field : Option Field) :
    ((determineMoveOrder dex spe coin p1Pokemon p2Pokemon p1Move p2Move field).firstPlayerKey
        = p1Pokemon.playerKey.getD .p1 ∧
     (determineMoveOrder dex spe coin p1Pokemon p2Pokemon p1Move p2Move field).secondPlayerKey
        = p2Pokemon.playerKey.getD .p2) ∨
    ((determineMoveOrder dex spe coin p1Pokemon p2Pokemon p1Move p2Move field).firstPlayerKey
        = p2Pokemon.playerKey.getD .p2 ∧
     (determineMoveOrder dex spe coin p1Pokemon p2Pokemon p1Move p2Move field).secondPlayerKey
        = p1Pokemon.playerKey.getD .p1) := by
  simp only [determineMoveOrder]
  split
  · by_cases hgt : movePriority dex p1Move > movePriority dex p2Move
    · exact Or.inl (by simp [hgt])
    · exact Or.inr (by simp [hgt])
  · split
    · by_cases hc : coin = true
      · exact Or.inl (by simp [hc])
      · exact Or.inr (by simp [hc])
    · by_cases hgo : (if (Option.bind field Field.isTrickRoom).getD false = true
          then (spe p1Pokemon p2Pokemon).getD 0 < (spe p2Pokemon p1Pokemon).getD 0
          else (spe p1Pokemon p2Pokemon).getD 0 > (spe p2Pokemon p1Pokemon).getD 0)
      · exact Or.inl (by simp [hgo])
      · exact Or.inr (by simp [hgo])

theorem getPlayer_setActivePokeRaw_isSome (s : BattleState) (k : PlayerKey) (i : Nat)
    (q : Pokemon) (k2 : PlayerKey) :
    (getPlayer (setActivePokeRaw s k i q) k2).isSome = (getPlayer s k2).isSome := by
  by_cases h : k2 = k
  · subst h
    simp only [setActivePokeRaw]
    cases hpl : getPlayer s k2
    · simp [hpl]
    · rw [getPlayer_setPlayer_same]
      simp [hpl]
  · rw [getPlayer_setActivePokeRaw_other s k k2 i q h]

theorem drainStage_getPlayer_isSome (s : BattleState) (uk : PlayerKey) (i : Nat)
    (up : Pokemon) (dm : DexMove) (mr : Option MatchupResult) (d : List String)
    (k2 : PlayerKey) :
    (getPlayer (drainStage s uk i up dm mr d).battleState k2).isSome
      = (getPlayer s k2).isSome := by
  simp only [drainStage]
  split
  · split
    · exact getPlayer_setActivePokeRaw_isSome _ _ _ _ _
    · rfl
  · rfl

theorem recoilStage_getPlayer_isSome (s : BattleState) (uk : PlayerKey) (i : Nat)
    (up : Pokemon) (dm : DexMove) (mr : Option MatchupResult) (d : List String)
    (k2 : PlayerKey) :
    (getPlayer (recoilStage s uk i up dm mr d).battleState k2).isSome
      = (getPlayer s k2).isSome := by
  simp only [recoilStage]
  split
  · split
    · split
      · exact getPlayer_setActivePokeRaw_isSome _ _ _ _ _
      · rw [drainStage_getPlayer_isSome]
        exact getPlayer_setActivePokeRaw_isSome _ _ _ _ _
    · exact drainStage_getPlayer_isSome _ _ _ _ _ _ _ _
  · exact drainStage_getPlayer_isSome _ _ _ _ _ _ _ _

theorem applyMoveEffects_getPlayer_isSome (dex : Option Dex) (s : BattleState)
    (uk tk : PlayerKey) (mv : String) (mr : Option MatchupResult) (k2 : PlayerKey) :
    (getPlayer (applyMoveEffects dex s uk tk mv mr).battleState k2).isSome
      = (getPlayer s k2).isSome := by
  simp only [applyMoveEffects]
  split
  · split
    · split
      · rfl
      · split
        · split
          · split
            · exact getPlayer_setActivePokeRaw_isSome _ _ _ _ _
            · rw [recoilStage_getPlayer_isSome]
              exact getPlayer_setActivePokeRaw_isSome _ _ _ _ _
          · exact recoilStage_getPlayer_isSome _ _ _ _ _ _ _ _
        · exact recoilStage_getPlayer_isSome _ _ _ _ _ _ _ _
    · rfl
  · rfl

/-- Claim C2: in a turn orchestration with valid players and active Pokemon
on both sides (each carrying its own player key), if applying the first
action reports the target removed or the actor removed, the returned result
contains exactly one MoveOutcome and the second action is never applied (the
returned battle state is exactly the state after the first application);
otherwise the result contains exactly two MoveOutcomes. -/
theorem simulateTurn_shortcircuit
    (dex : Option Dex)
    (calcMatchup : Option Pokemon → Option Pokemon → String → Option MatchupResult)
    (spe : Pokemon → Pokemon → Option Nat) (coin : Bool)
    (s : BattleState) (playerKey opponentKey : PlayerKey)
    (playerMove opponentMove : String)
    (player opponent : Player) (playerPokemon opponentPokemon : Pokemon)
    (mo : MoveOrderInfo) (fr : MoveEffectResult)
    (hpl : getPlayer s playerKey = some player)
    (hop : getPlayer s opponentKey = some opponent)
    (hpp : pokeAt player (activeIdx player) = some playerPokemon)
    (hopp : pokeAt opponent (activeIdx opponent) = some opponentPokemon)
    (hk1 : playerPokemon.playerKey = some playerKey)
    (hk2 : opponentPokemon.playerKey = some opponentKey)
    (hmo : mo = determineMoveOrder dex spe coin playerPokemon opponentPokemon
      playerMove opponentMove s.field)
    (hfr : fr = applyMoveEffects dex s mo.firstPlayerKey mo.secondPlayerKey mo.firstMove
      (calcMatchup (activePoke s mo.firstPlayerKey) (activePoke s mo.secondPlayerKey)
        mo.firstMove)) :
    ∃ r, simulateTurn dex calcMatchup spe coin s playerKey opponentKey
        playerMove opponentMove = some r ∧
      (fr.targetFainted = true ∨ fr.userFainted = true →
        r.moveResults.length = 1 ∧ r.battleState = fr.battleState) ∧
      (fr.targetFainted = false → fr.userFainted = false →
        r.moveResults.length = 2) := by
  have hkeys := determineMoveOrder_keys dex spe coin playerPokemon opponentPokemon
    playerMove opponentMove s.field
  rw [← hmo] at hkeys
  simp only [hk1, hk2, Option.getD_some] at hkeys
  simp only [simulateTurn, hpl, hop, hpp, hopp]
  rw [← hmo]
  rcases hkeys with ⟨hf, hs⟩ | ⟨hf, hs⟩
  · rw [hf, hs]
    rw [hf, hs] at hfr
    simp only [activePoke, hpl, hop, Option.some_bind] at hfr
    simp only [hpl, hop]
    rw [← hfr]
    by_cases htf : fr.targetFainted = true
    · rw [if_pos htf]
      refine ⟨_, rfl, fun _ => ⟨rfl, rfl⟩, fun h1 _ => ?_⟩
      simp [h1] at htf
    · have htf2 : fr.targetFainted = false := by
        cases hh : fr.targetFainted
        · rfl
        · exact absurd hh htf
      rw [if_neg htf]
      by_cases huf : fr.userFainted = true
      · rw [if_pos huf]
        refine ⟨_, rfl, fun _ => ⟨rfl, rfl⟩, fun _ h2 => ?_⟩
        simp [h2] at huf
      · have huf2 : fr.userFainted = false := by
          cases hh : fr.userFainted
          · rfl
          · exact absurd hh huf
        rw [if_neg huf]
        have hp2 : (getPlayer fr.battleState opponentKey).isSome = true := by
          rw [hfr, applyMoveEffects_getPlayer_isSome, hop]
          rfl
        obtain ⟨pl2, hpl2⟩ := Option.isSome_iff_exists.mp hp2
        have hp1 : (getPlayer fr.battleState playerKey).isSome = true := by
          rw [hfr, applyMoveEffects_getPlayer_isSome, hpl]
          rfl
        obtain ⟨pl1, hpl1⟩ := Option.isSome_iff_exists.mp hp1
        simp only [hpl2, hpl1]
        refine ⟨_, rfl, ?_, fun _ _ => rfl⟩
        rintro (h1 | h1)
        · simp [h1] at htf2
        · simp [h1] at huf2
  · rw [hf, hs]
    rw [hf, hs] at hfr
    simp only [activePoke, hpl, hop, Option.some_bind] at hfr
    simp only [hpl, hop]
    rw [← hfr]
    by_cases htf : fr.targetFainted = true
    · rw [if_pos htf]
      refine ⟨_, rfl, fun _ => ⟨rfl, rfl⟩, fun h1 _ => ?_⟩
      simp [h1] at htf
    · have htf2 : fr.targetFainted = false := by
        cases hh : fr.targetFainted
        · rfl
        · exact absurd hh htf
      rw [if_neg htf]
      by_cases huf : fr.userFainted = true
      · rw [if_pos huf]
        refine ⟨_, rfl, fun _ => ⟨rfl, rfl⟩, fun _ h2 => ?_⟩
        simp [h2] at huf
      · have huf2 : fr.userFainted = false := by
          cases hh : fr.userFainted
          · rfl
          · exact absurd hh huf
        rw [if_neg huf]
        have hp2 : (getPlayer fr.battleState playerKey).isSome = true := by
          rw [hfr, applyMoveEffects_getPlayer_isSome, hpl]
          rfl
        obtain ⟨pl2, hpl2⟩ := Option.isSome_iff_exists.mp hp2
        have hp1 : (getPlayer fr.battleState opponentKey).isSome = true := by
          rw [hfr, applyMoveEffects_getPlayer_isSome, hop]
          rfl
        obtain ⟨pl1, hpl1⟩ := Option.isSome_iff_exists.mp hp1
        simp only [hpl2, hpl1]
        refine ⟨_, rfl, ?_, fun _ _ => rfl⟩
        rintro (h1 | h1)
        · simp [h1] at htf2
        · simp [h1] at huf2

def w2Dex : Option Dex := some ⟨fun m => if m = "Tackle" then some {} else none⟩

def w2PokeA : Pokemon :=
  { speciesForme := "A", playerKey := some .p1, hp := some 100, maxhp := some 100 }

def w2PokeB : Pokemon :=
  { speciesForme := "B", playerKey := some .p2, hp := some 100, maxhp := some 100 }

def w2Player : Player := { pokemon := some [w2PokeA] }

def w2Opponent : Player := { pokemon := some [w2PokeB] }

def w2State : BattleState := { p1 := some w2Player, p2 := some w2Opponent }

def w2Spe : Pokemon → Pokemon → Option Nat :=
  fun a _ => if a.speciesForme = "A" then some 100 else some 50

def w2Calc : Option Pokemon → Option Pokemon → String → Option MatchupResult :=
  fun _ _ _ => some { damageRange := some (.range 10 10) }

/-- Witness for C2: two healthy Pokemon trading non-lethal 10-damage Tackles
produce a turn result with exactly two MoveOutcomes. -/
theorem simulateTurn_shortcircuit_witness :
    ∃ r, simulateTurn w2Dex w2Calc w2Spe true w2State .p1 .p2 "Tackle" "Tackle"
        = some r ∧ r.moveResults.length = 2 := by
  obtain ⟨r, hr, -, h2⟩ := simulateTurn_shortcircuit w2Dex w2Calc w2Spe true w2State
    .p1 .p2 "Tackle" "Tackle" w2Player w2Opponent w2PokeA w2PokeB _ _
    rfl rfl rfl rfl rfl rfl rfl rfl
  exact ⟨r, hr, h2 (by decide) (by decide)⟩

end PlayAhead
